import Mathlib

/-!
# Shallow embedding of nettest's test-execution and result-aggregation engine

This file embeds the core of `nettest.go` (the dispatcher `runTests` and the
two probe strategies `testHTTPConnection` / `testTCPConnection`) together with
the data model from the configuration module (`TestConfig`, `Configuration`,
`ResponseDetails`).

Modelling decisions:

* Network I/O (`http.NewRequest`, `net.ResolveIPAddr`, `http.Client.Do`,
  `ioutil.ReadAll`, `net.DialTimeout`) is nondeterministic external behaviour;
  it is modelled by an explicit environment record `ProbeEnv` whose fields are
  functions of the arguments the Go code passes to the corresponding library
  call (the request URL, the host, the effective timeout).  `runTests` takes a
  per-target family of environments, one per loop index.
* The run-wide default timeout lives in the Go global `timeout` (a flag); it is
  threaded through as an explicit parameter `dflt`.
* Go struct values are copied on assignment and on parameter passing; the
  in-place field mutations of the local `test` variable are modelled by
  shadowing `let` bindings, which is exactly Go's by-value semantics (the
  caller's slice is never affected).
* `time.Since(startTime).String()` is stored in the Go field `Time string`,
  whose zero value is the empty string.  It is modelled as `Option Nat`:
  `none` is the never-assigned zero value, `some d` is the rendered duration
  of `d` nanoseconds.  Go's monotonic clock makes `time.Since` non-negative,
  hence `Nat`.
* `strings.ToLower` and `strings.HasPrefix` are modelled byte-for-byte for
  ASCII data (`goToLower`, `goStartsWith`).  Go's `ToLower` is Unicode-aware,
  but the only non-ASCII code points whose lower case is an ASCII letter are
  U+0130 (→ i) and U+212A (→ k), and neither `i` nor `k` occurs in `"tcp"`,
  `"http"`, `"https"`, so the routing comparison is unaffected.
-/

/-- Go's `strings.ToLower` on one ASCII character: `A`–`Z` map to `a`–`z`,
everything else is unchanged. -/
def asciiToLower (c : Char) : Char :=
  if 'A' ≤ c ∧ c ≤ 'Z' then Char.ofNat (c.toNat + 32) else c

/-- Go's `strings.ToLower` (ASCII fragment, see the header comment). -/
def goToLower (s : String) : String :=
  ⟨s.data.map asciiToLower⟩

/-- Go's `strings.HasPrefix s pre`: `s` begins with the bytes of `pre`. -/
def goStartsWith (s pre : String) : Bool :=
  List.isPrefixOf pre.data s.data

/-- Go's `net.JoinHostPort`: brackets the host when it contains a colon
(IPv6 literals), otherwise plain `host:port`. -/
def joinHostPort (host port : String) : String :=
  if host.data.contains ':' then "[" ++ host ++ "]:" ++ port
  else host ++ ":" ++ port

/-- `Configuration` (config module): the unit defining a specific test.
Field-for-field the Go struct; Go `int` is `Int`, Go `bool` is `Bool`. -/
structure Configuration where
  NetworkName : String
  Host        : String
  Path        : String
  Port        : Int
  Proto       : String
  Timeout     : Int
  CaptureBody : Bool
deriving Repr, DecidableEq

/-- `TestConfig` (config module): the top level of the parsed YAML config. -/
structure TestConfig where
  TestName : String
  Email    : String
  Config   : List Configuration
deriving Repr

/-- `ResponseDetails` (config module): the per-target result record.
`Time` models the Go `string` field as described in the header comment. -/
structure ResponseDetails where
  Request          : Configuration
  Success          : Bool
  Status           : Int
  FailureMessage   : String
  Body             : String
  Time             : Option Nat
  IPResolvedStatus : String
deriving Repr, DecidableEq

/-- The Go zero value `Configuration{}`. -/
def Configuration.zero : Configuration :=
  { NetworkName := "", Host := "", Path := "", Port := 0, Proto := "",
    Timeout := 0, CaptureBody := false }

/-- The Go zero value `ResponseDetails{}` (`resp := ResponseDetails{}` in
`runTests`, and the base of the composite literals in the probes). -/
def ResponseDetails.zero : ResponseDetails :=
  { Request := Configuration.zero, Success := false, Status := 0,
    FailureMessage := "", Body := "", Time := none, IPResolvedStatus := "" }

/-- The outcome of a successful `client.Do` round trip, together with the
outcome of the subsequent `ioutil.ReadAll(resp.Body)`: `bodyBytes` is the
data `ReadAll` returned (everything read before an error, possibly partial)
and `bodyReadErr` its error value. -/
structure HTTPResponse where
  StatusCode  : Int
  bodyBytes   : String
  bodyReadErr : Option String
deriving Repr, DecidableEq

/-- The external world as one probe observes it.  Each field is the outcome
of one Go library call, as a function of the arguments the code passes:

* `newRequestErr url`: the error of `http.NewRequest("GET", url, nil)`.
* `resolve host`: `net.ResolveIPAddr("ip4", host)` as the pair
  (`ipRes.String()`, error).
* `doResult url timeoutSeconds`: `client.Do(req)` where the client carries
  the given timeout; `.error e` is a transport failure with error text `e`,
  `.ok resp` a completed round trip.
* `httpElapsed` / `tcpElapsed`: the duration `time.Since(startTime)`
  measures in the respective probe, in nanoseconds.
* `tcpDial address timeoutSeconds`: the error of
  `net.DialTimeout("tcp", address, timeout)`, `none` on success. -/
structure ProbeEnv where
  newRequestErr : String → Option String
  resolve       : String → String × Option String
  doResult      : String → Int → Except String HTTPResponse
  httpElapsed   : Nat
  tcpDial       : String → Int → Option String
  tcpElapsed    : Nat

/-- Lines 129–131 and 188–190: `if test.Timeout == 0 { test.Timeout = timeout }`,
with `dflt` the run-wide default held by the global `timeout` flag. -/
def defaultTimeout (dflt : Int) (test : Configuration) : Configuration :=
  if test.Timeout = 0 then { test with Timeout := dflt } else test

/-- Lines 136–138: `if !strings.HasPrefix(test.Path, "/") { test.Path = "/" + test.Path }`. -/
def normalizePath (test : Configuration) : Configuration :=
  if ¬ goStartsWith test.Path "/" then { test with Path := "/" ++ test.Path }
  else test

/-- Line 140: `fmt.Sprintf("%s://%s:%d%s", test.Proto, test.Host, test.Port, test.Path)`. -/
def requestURL (test : Configuration) : String :=
  test.Proto ++ "://" ++ test.Host ++ ":" ++ toString test.Port ++ test.Path

/-- Lines 126–182, `testHTTPConnection`.  The `fmt.Printf` progress output is
not modelled; everything that reaches the returned `ResponseDetails` is. -/
def testHTTPConnection (env : ProbeEnv) (dflt : Int) (_testNr : Nat)
    (test0 : Configuration) : ResponseDetails :=
  -- lines 129–131: in-place timeout defaulting on the by-value parameter
  let test := defaultTimeout dflt test0
  -- line 134: snapshot of `test` taken here, before path normalization
  let respDetails : ResponseDetails :=
    { ResponseDetails.zero with Request := test, Success := false }
  -- lines 136–138
  let test := normalizePath test
  -- line 140
  let url := requestURL test
  -- lines 141–146: early return, `Time` never assigned
  match env.newRequestErr url with
  | some errMsg => { respDetails with FailureMessage := errMsg }
  | none =>
    -- lines 148–153: informational resolution; `ipRes.String()` stored first,
    -- then overwritten by the sentinel when `err != nil`
    let respDetails :=
      { respDetails with IPResolvedStatus := (env.resolve test.Host).1 }
    let respDetails :=
      if (env.resolve test.Host).2.isSome then
        { respDetails with IPResolvedStatus := "Failed to resolve IP from DNS." }
      else respDetails
    -- lines 155–178
    let respDetails :=
      match env.doResult url test.Timeout with
      | Except.error errMsg => { respDetails with FailureMessage := errMsg }
      | Except.ok resp =>
        let respDetails :=
          { respDetails with Status := resp.StatusCode, Success := true }
        if test.CaptureBody then
          -- lines 166–173: `Body` is assigned the bytes `ReadAll` returned
          -- before the error check; a read error only prints a warning
          { respDetails with Body := resp.bodyBytes }
        else respDetails
    -- line 180
    { respDetails with Time := some env.httpElapsed }

/-- Lines 185–206, `testTCPConnection`. -/
def testTCPConnection (env : ProbeEnv) (dflt : Int) (_testNr : Nat)
    (test0 : Configuration) : ResponseDetails :=
  -- lines 188–190
  let test := defaultTimeout dflt test0
  -- line 193
  let respDetails : ResponseDetails :=
    { ResponseDetails.zero with Request := test, Success := false }
  -- line 194
  let dialErr := env.tcpDial (joinHostPort test.Host (toString test.Port)) test.Timeout
  -- lines 196–202
  let respDetails :=
    match dialErr with
    | some errMsg => { respDetails with FailureMessage := errMsg }
    | none => { respDetails with Success := true }
  -- line 204
  { respDetails with Time := some env.tcpElapsed }

/-- Line 114: the synthesized failure cause for an unsupported protocol,
with the source's literal text (including the `Configurstion` typo and the
trailing newline); `%d` is the loop index, `%s` the lower-cased protocol. -/
def invalidProtoMessage (testNr : Nat) (netTest : Configuration) : String :=
  "[" ++ toString testNr ++ "] Configurstion error: protocol \"" ++
    goToLower netTest.Proto ++ "\" specified for host \"" ++ netTest.Host ++
    "\" is invalid. Must be TCP, HTTP, or HTTPS.\n"

/-- The body of the `for` loop of `runTests` (lines 107–118): route one
target by its lower-cased protocol, or synthesize a failure record. -/
def dispatchTarget (env : ProbeEnv) (dflt : Int) (testNr : Nat)
    (netTest : Configuration) : ResponseDetails :=
  if goToLower netTest.Proto = "http" ∨ goToLower netTest.Proto = "https" then
    testHTTPConnection env dflt testNr netTest
  else if goToLower netTest.Proto = "tcp" then
    testTCPConnection env dflt testNr netTest
  else
    { ResponseDetails.zero with
        Request := netTest,
        FailureMessage := invalidProtoMessage testNr netTest }

/-- The routing decision of `runTests`, read off the same conditional as
`dispatchTarget` (see `dispatchTarget_eq_route`). -/
inductive Route where
  | httpRoute
  | tcpRoute
  | invalidRoute
deriving Repr, DecidableEq

/-- Which probe strategy `runTests` selects for a target. -/
def routeOf (netTest : Configuration) : Route :=
  if goToLower netTest.Proto = "http" ∨ goToLower netTest.Proto = "https" then
    Route.httpRoute
  else if goToLower netTest.Proto = "tcp" then
    Route.tcpRoute
  else
    Route.invalidRoute

/-- The `for testNr, netTest := range config.Config` loop of `runTests`
(lines 106–121), with its `results = append(results, resp)` accumulator. -/
def runTestsLoop (env : Nat → ProbeEnv) (dflt : Int) :
    Nat → List Configuration → List ResponseDetails → List ResponseDetails
  | _, [], results => results
  | testNr, netTest :: rest, results =>
    runTestsLoop env dflt (testNr + 1) rest
      (results ++ [dispatchTarget (env testNr) dflt testNr netTest])

/-- Lines 100–123, `runTests`: iterate the configured targets in order,
appending one record per target. -/
def runTests (env : Nat → ProbeEnv) (dflt : Int) (config : TestConfig) :
    List ResponseDetails :=
  runTestsLoop env dflt 0 config.Config []

/-- Proof-side restatement of the loop as a map with index: `runTestsLoop`
starting from index `nr` with an empty accumulator (see
`runTestsLoop_eq_append`). -/
def runTestsAux (env : Nat → ProbeEnv) (dflt : Int) :
    Nat → List Configuration → List ResponseDetails
  | _, [] => []
  | nr, netTest :: rest =>
    dispatchTarget (env nr) dflt nr netTest :: runTestsAux env dflt (nr + 1) rest

/-- The unsupported-protocol failure message exactly as §4.1 of the spec
words it, for comparison with the message the code actually builds. -/
def specInvalidMessage (proto host : String) : String :=
  "protocol \"" ++ proto ++ "\" for host \"" ++ host ++
    "\" is invalid; must be tcp, http, or https"

/-- The effective-timeout rule exactly as §4.2 of the spec words it
("`target.timeout` if > 0, else `effective_timeout_seconds`"), for
comparison with the `== 0` test the code actually performs. -/
def specEffectiveTimeout (dflt : Int) (t : Configuration) : Int :=
  if t.Timeout > 0 then t.Timeout else dflt

/-! ## Concrete fixtures used by witnesses and counterexamples -/

/-- An environment in which every external call succeeds. -/
def envAllOk : ProbeEnv :=
  { newRequestErr := fun _ => none,
    resolve := fun _ => ("93.184.216.34", none),
    doResult := fun _ _ =>
      Except.ok { StatusCode := 200, bodyBytes := "", bodyReadErr := none },
    httpElapsed := 5,
    tcpDial := fun _ _ => none,
    tcpElapsed := 7 }

/-- An environment whose round trip returns HTTP 404. -/
def env404 : ProbeEnv :=
  { envAllOk with
    doResult := fun _ _ =>
      Except.ok { StatusCode := 404, bodyBytes := "not found", bodyReadErr := none } }

/-- An environment in which DNS resolution fails but the round trip succeeds. -/
def envDnsFail : ProbeEnv :=
  { envAllOk with resolve := fun _ => ("<nil>", some "no such host") }

/-- A completed round trip whose body read failed after returning partial
bytes (the `ioutil.ReadAll` contract: data read so far, plus the error). -/
def respPartial : HTTPResponse :=
  { StatusCode := 200, bodyBytes := "partial", bodyReadErr := some "unexpected EOF" }

/-- An environment whose round trip succeeds but whose body read fails. -/
def envBodyFail : ProbeEnv :=
  { envAllOk with doResult := fun _ _ => Except.ok respPartial }

/-- An environment whose round trip succeeds exactly at the slash-terminated
URL `http://h:80/` and is a transport failure at every other URL. -/
def envSlashOnly : ProbeEnv :=
  { envAllOk with
    doResult := fun url _ =>
      if url = "http://h:80/" then
        Except.ok { StatusCode := 200, bodyBytes := "", bodyReadErr := none }
      else Except.error ("connection refused at " ++ url) }

/-- A target with an unsupported protocol. -/
def cfgFtp : Configuration :=
  { NetworkName := "files", Host := "example.com", Path := "", Port := 21,
    Proto := "ftp", Timeout := 0, CaptureBody := false }

/-- A plain TCP target. -/
def cfgTcp : Configuration :=
  { NetworkName := "ssh", Host := "example.com", Path := "", Port := 22,
    Proto := "tcp", Timeout := 0, CaptureBody := false }

/-- A plain HTTP target with an unset (zero) timeout. -/
def cfgHttp : Configuration :=
  { NetworkName := "web", Host := "example.com", Path := "index.html",
    Port := 80, Proto := "http", Timeout := 0, CaptureBody := false }

/-- An HTTP target whose `path` is the empty string. -/
def cfgEmptyPath : Configuration :=
  { NetworkName := "root", Host := "h", Path := "", Port := 80,
    Proto := "http", Timeout := 10, CaptureBody := false }

/-- An HTTP target that asks for body capture. -/
def cfgCapture : Configuration :=
  { NetworkName := "cap", Host := "example.com", Path := "", Port := 80,
    Proto := "http", Timeout := 3, CaptureBody := true }

/-- A TCP target with a negative configured timeout. -/
def cfgNegTimeout : Configuration :=
  { NetworkName := "neg", Host := "h", Path := "", Port := 22,
    Proto := "tcp", Timeout := -1, CaptureBody := false }

/-! ## Shared lemmas about the embedded definitions -/

theorem defaultTimeout_eq (dflt : Int) (t : Configuration) :
    defaultTimeout dflt t =
      { t with Timeout := if t.Timeout = 0 then dflt else t.Timeout } := by
  unfold defaultTimeout
  split <;> simp_all

theorem normalizePath_Host (u : Configuration) :
    (normalizePath u).Host = u.Host := by
  unfold normalizePath
  split <;> rfl

theorem normalizePath_Timeout (u : Configuration) :
    (normalizePath u).Timeout = u.Timeout := by
  unfold normalizePath
  split <;> rfl

theorem normalizePath_CaptureBody (u : Configuration) :
    (normalizePath u).CaptureBody = u.CaptureBody := by
  unfold normalizePath
  split <;> rfl

theorem requestURL_normalizePath (u : Configuration) :
    requestURL (normalizePath u) =
      u.Proto ++ "://" ++ u.Host ++ ":" ++ toString u.Port ++
        (if goStartsWith u.Path "/" then u.Path else "/" ++ u.Path) := by
  unfold normalizePath requestURL
  split <;> simp_all

theorem dispatchTarget_eq_route (env : ProbeEnv) (dflt : Int) (nr : Nat)
    (t : Configuration) :
    dispatchTarget env dflt nr t =
      (match routeOf t with
       | Route.httpRoute => testHTTPConnection env dflt nr t
       | Route.tcpRoute => testTCPConnection env dflt nr t
       | Route.invalidRoute =>
         { ResponseDetails.zero with
             Request := t
             FailureMessage := invalidProtoMessage nr t }) := by
  by_cases h1 : goToLower t.Proto = "http" ∨ goToLower t.Proto = "https"
  · simp [dispatchTarget, routeOf, h1]
  · by_cases h2 : goToLower t.Proto = "tcp"
    · simp [dispatchTarget, routeOf, h1, h2]
    · simp [dispatchTarget, routeOf, h1, h2]

theorem testHTTPConnection_Request (env : ProbeEnv) (dflt : Int) (nr : Nat)
    (t : Configuration) :
    (testHTTPConnection env dflt nr t).Request = defaultTimeout dflt t := by
  simp only [testHTTPConnection]
  repeat' split
  all_goals rfl

theorem testTCPConnection_Request (env : ProbeEnv) (dflt : Int) (nr : Nat)
    (t : Configuration) :
    (testTCPConnection env dflt nr t).Request = defaultTimeout dflt t := by
  simp only [testTCPConnection]
  repeat' split
  all_goals rfl

theorem runTestsLoop_eq_append (env : Nat → ProbeEnv) (dflt : Int) :
    ∀ (ts : List Configuration) (nr : Nat) (acc : List ResponseDetails),
      runTestsLoop env dflt nr ts acc = acc ++ runTestsAux env dflt nr ts := by
  intro ts
  induction ts with
  | nil => intro nr acc; simp [runTestsLoop, runTestsAux]
  | cons t rest ih =>
    intro nr acc
    rw [runTestsLoop, runTestsAux, ih]
    simp

theorem runTestsAux_length (env : Nat → ProbeEnv) (dflt : Int) :
    ∀ (ts : List Configuration) (nr : Nat),
      (runTestsAux env dflt nr ts).length = ts.length := by
  intro ts
  induction ts with
  | nil => intro nr; rfl
  | cons t rest ih => intro nr; simp [runTestsAux, ih]

theorem runTestsAux_getElem? (env : Nat → ProbeEnv) (dflt : Int) :
    ∀ (ts : List Configuration) (nr i : Nat),
      (runTestsAux env dflt nr ts)[i]? =
        (ts[i]?).map (fun t => dispatchTarget (env (nr + i)) dflt (nr + i) t) := by
  intro ts
  induction ts with
  | nil => intro nr i; simp [runTestsAux]
  | cons t rest ih =>
    intro nr i
    cases i with
    | zero => simp [runTestsAux]
    | succ j =>
      have h : nr + (j + 1) = (nr + 1) + j := by omega
      simp [runTestsAux, h, ih (nr + 1) j]

/-! ## Claim theorems -/

/-- C1: for every input sequence of N target specifications, `runTests`
returns exactly N result records, in input order, one per target,
unconditionally: the record at every index `i` is exactly the dispatch of
the `i`-th target, whatever its outcome (probe failure or unsupported
protocol), so no target's failure removes or reorders a record. -/
theorem dispatcher_one_record_per_target (env : Nat → ProbeEnv) (dflt : Int)
    (config : TestConfig) :
    (runTests env dflt config).length = config.Config.length ∧
    ∀ i : Nat, (runTests env dflt config)[i]? =
      (config.Config[i]?).map (fun t => dispatchTarget (env i) dflt i t) := by
  constructor
  · simp [runTests, runTestsLoop_eq_append, runTestsAux_length]
  · intro i
    simp [runTests, runTestsLoop_eq_append, runTestsAux_getElem?]

/-- C9: the routing decision of the dispatcher is invariant under the case
of the protocol field: any protocol string with the same lower-casing (such
as `TCP` or `Tcp` versus `tcp`) selects the same probe strategy, and the
dispatcher acts exactly by that routing decision. -/
theorem protocol_routing_case_insensitive (env : ProbeEnv) (dflt : Int)
    (nr : Nat) (t : Configuration) (s : String)
    (h : goToLower s = goToLower t.Proto) :
    routeOf { t with Proto := s } = routeOf t ∧
    dispatchTarget env dflt nr t =
      (match routeOf t with
       | Route.httpRoute => testHTTPConnection env dflt nr t
       | Route.tcpRoute => testTCPConnection env dflt nr t
       | Route.invalidRoute =>
         { ResponseDetails.zero with
             Request := t
             FailureMessage := invalidProtoMessage nr t }) :=
  ⟨by simp [routeOf, h], dispatchTarget_eq_route env dflt nr t⟩

/-- C9 witness: `TCP` is routed exactly as `tcp`. -/
theorem protocol_routing_case_insensitive_witness :
    routeOf { cfgTcp with Proto := "TCP" } = routeOf cfgTcp :=
  (protocol_routing_case_insensitive envAllOk 10 0 cfgTcp "TCP" (by decide)).1

/-- C5 counterexample: for the target with protocol `ftp` on host
`example.com` at index 0 the synthesized failure message is not the string
the spec prescribes; the code builds a differently worded message (index
tag, `Configurstion error` typo, upper-case protocol list, trailing
newline). -/
theorem invalid_protocol_message_cex :
    (dispatchTarget envAllOk 10 0 cfgFtp).FailureMessage ≠
      specInvalidMessage "ftp" "example.com" ∧
    (dispatchTarget envAllOk 10 0 cfgFtp).FailureMessage =
      "[0] Configurstion error: protocol \"ftp\" specified for host \"example.com\" is invalid. Must be TCP, HTTP, or HTTPS.\n" := by
  decide

/-- C5 (amended): a target whose lower-cased protocol is outside
{tcp, http, https} yields a synthesized record with `success = false` and
failure message `[<index>] Configurstion error: protocol "<lower-cased
protocol>" specified for host "<host>" is invalid. Must be TCP, HTTP, or
HTTPS.\n` — a message containing the lower-cased offending protocol and the
host — and the record is independent of the probe environment, i.e. no
network I/O outcome can influence it. -/
theorem invalid_protocol_synthesized_record (env env2 : ProbeEnv)
    (dflt dflt2 : Int) (nr : Nat) (t : Configuration)
    (h : routeOf t = Route.invalidRoute) :
    dispatchTarget env dflt nr t =
      { ResponseDetails.zero with
          Request := t
          FailureMessage := invalidProtoMessage nr t } ∧
    (dispatchTarget env dflt nr t).Success = false ∧
    invalidProtoMessage nr t =
      "[" ++ toString nr ++ "] Configurstion error: protocol \"" ++
        goToLower t.Proto ++ "\" specified for host \"" ++ t.Host ++
        "\" is invalid. Must be TCP, HTTP, or HTTPS.\n" ∧
    dispatchTarget env dflt nr t = dispatchTarget env2 dflt2 nr t := by
  have e1 := dispatchTarget_eq_route env dflt nr t
  have e2 := dispatchTarget_eq_route env2 dflt2 nr t
  simp only [h] at e1 e2
  exact ⟨e1, by simp [e1, ResponseDetails.zero], rfl, by rw [e1, e2]⟩

/-- C5 witness: the `ftp` target at index 0 instantiates the amended
claim. -/
theorem invalid_protocol_synthesized_record_witness :
    (dispatchTarget envAllOk 10 0 cfgFtp).Success = false :=
  (invalid_protocol_synthesized_record envAllOk env404 10 7 0 cfgFtp
    (by decide)).2.1

/-- C2 counterexample: on the unsupported-protocol path the elapsed-time
field is never assigned: the record for the `ftp` target keeps the zero
value (the empty string in Go, `none` here), so elapsed time is not
populated on every outcome path. -/
theorem elapsed_unset_on_invalid_protocol_cex :
    (dispatchTarget envAllOk 10 0 cfgFtp).Time = none ∧
    (dispatchTarget envAllOk 10 0 cfgFtp).Time.isSome = false := by
  decide

/-- C2 (amended): elapsed time is populated (and, being a duration of Go's
monotonic clock, non-negative) on every TCP outcome path and on every HTTP
outcome path except request-construction failure; on the HTTP
request-construction failure path and on the unsupported-protocol path the
field keeps its unset zero value. -/
theorem elapsed_time_by_path (env : ProbeEnv) (dflt : Int) (nr : Nat)
    (t : Configuration) :
    (testTCPConnection env dflt nr t).Time = some env.tcpElapsed ∧
    (testHTTPConnection env dflt nr t).Time =
      (match env.newRequestErr (requestURL (normalizePath (defaultTimeout dflt t))) with
       | some _ => none
       | none => some env.httpElapsed) ∧
    (dispatchTarget env dflt nr t).Time =
      (match routeOf t with
       | Route.httpRoute => (testHTTPConnection env dflt nr t).Time
       | Route.tcpRoute => (testTCPConnection env dflt nr t).Time
       | Route.invalidRoute => none) := by
  refine ⟨?_, ?_, ?_⟩
  · simp only [testTCPConnection]
  · simp only [testHTTPConnection]
    repeat' split
    all_goals rfl
  · rw [dispatchTarget_eq_route env dflt nr t]
    cases routeOf t <;> rfl

/-- C3 counterexample: for an HTTP target with empty `path` the code
prepends `/` (the empty string does not have `/` as a prefix), so the
request goes to `http://h:80/`, not to the bare `http://h:80` the claim
prescribes; the probe's round trip indeed happens at the slash-terminated
URL. -/
theorem empty_path_cex :
    requestURL (normalizePath cfgEmptyPath) = "http://h:80/" ∧
    requestURL (normalizePath cfgEmptyPath) ≠ "http://h:80" ∧
    (testHTTPConnection envSlashOnly 10 0 cfgEmptyPath).Success = true := by
  decide

/-- C3 (amended): path normalization prepends `/` exactly when the path
does not already start with `/`, including the empty path: a target with
path `foo` is requested at `<proto>://<host>:<port>/foo`, and a target with
path `""` is requested at `<proto>://<host>:<port>/` — a trailing slash is
added. -/
theorem path_normalization (dflt : Int) (t : Configuration) :
    (normalizePath t).Path =
      (if goStartsWith t.Path "/" then t.Path else "/" ++ t.Path) ∧
    requestURL (normalizePath (defaultTimeout dflt { t with Path := "foo" })) =
      t.Proto ++ "://" ++ t.Host ++ ":" ++ toString t.Port ++ "/foo" ∧
    requestURL (normalizePath (defaultTimeout dflt { t with Path := "" })) =
      t.Proto ++ "://" ++ t.Host ++ ":" ++ toString t.Port ++ "/" := by
  have h1 : goStartsWith "foo" "/" = false := by decide
  have h2 : goStartsWith "" "/" = false := by decide
  refine ⟨?_, ?_, ?_⟩
  · unfold normalizePath
    split <;> simp_all
  · rw [defaultTimeout_eq, requestURL_normalizePath]
    simp [h1]
  · rw [defaultTimeout_eq, requestURL_normalizePath]
    simp [h2]

/-- C4 counterexample: a round trip that succeeds but whose body read fails
after `ReadAll` returned partial bytes leaves `success = true` — but the
body field holds the partial bytes, it is not left absent/empty: the code
assigns `string(respBody)` before checking the read error. -/
theorem body_read_failure_partial_body_cex :
    (testHTTPConnection envBodyFail 10 0 cfgCapture).Success = true ∧
    (testHTTPConnection envBodyFail 10 0 cfgCapture).Body = "partial" ∧
    (testHTTPConnection envBodyFail 10 0 cfgCapture).Body ≠ "" := by
  decide

/-- C4 (amended): with `capture_body = true`, when the transport round trip
succeeds the record keeps `success = true` regardless of the body-read
outcome, and the body field holds exactly the bytes `ReadAll` returned —
the full payload on a clean read, the partial prefix on a read failure
(the read error itself is only warned about, never recorded). -/
theorem body_read_failure_keeps_success (env : ProbeEnv) (dflt : Int)
    (nr : Nat) (t : Configuration) (resp : HTTPResponse)
    (hreq : env.newRequestErr (requestURL (normalizePath (defaultTimeout dflt t))) = none)
    (hdo : env.doResult (requestURL (normalizePath (defaultTimeout dflt t)))
             ((normalizePath (defaultTimeout dflt t)).Timeout) = Except.ok resp)
    (hcb : t.CaptureBody = true) :
    (testHTTPConnection env dflt nr t).Success = true ∧
    (testHTTPConnection env dflt nr t).Body = resp.bodyBytes := by
  have hcb2 : (normalizePath (defaultTimeout dflt t)).CaptureBody = true := by
    rw [normalizePath_CaptureBody, defaultTimeout_eq]
    exact hcb
  simp [testHTTPConnection, hreq, hdo, hcb2]

/-- C4 witness: the partial-read environment instantiates the amended
claim. -/
theorem body_read_failure_keeps_success_witness :
    (testHTTPConnection envBodyFail 10 0 cfgCapture).Success = true ∧
    (testHTTPConnection envBodyFail 10 0 cfgCapture).Body = "partial" :=
  body_read_failure_keeps_success envBodyFail 10 0 cfgCapture respPartial
    rfl rfl rfl

/-- C6 counterexample: a target with `timeout = -1` is not defaulted: the
spec's rule ("own timeout if > 0, else the run-wide default") demands 10,
but the code's `== 0` test keeps −1 as the effective timeout. -/
theorem negative_timeout_not_defaulted_cex :
    specEffectiveTimeout 10 cfgNegTimeout = 10 ∧
    (testTCPConnection envAllOk 10 0 cfgNegTimeout).Request.Timeout = -1 ∧
    (testTCPConnection envAllOk 10 0 cfgNegTimeout).Request.Timeout ≠
      specEffectiveTimeout 10 cfgNegTimeout := by
  decide

/-- C6 (amended): the effective timeout is the target's own timeout value
when it is nonzero and the run-wide default when it is zero (a negative
configured timeout is kept as-is, not replaced): a target with `timeout=0`
uses the run-wide default, a target with `timeout=5` uses 5 regardless of
the default, and the TCP dial is attempted with exactly the resolved
value. -/
theorem effective_timeout_resolution (env : ProbeEnv) (dflt : Int) (nr : Nat)
    (t : Configuration) :
    (testTCPConnection env dflt nr t).Request.Timeout =
      (if t.Timeout = 0 then dflt else t.Timeout) ∧
    (testHTTPConnection env dflt nr t).Request.Timeout =
      (if t.Timeout = 0 then dflt else t.Timeout) ∧
    (testTCPConnection env dflt nr t).Success =
      (env.tcpDial (joinHostPort t.Host (toString t.Port))
        (if t.Timeout = 0 then dflt else t.Timeout)).isNone ∧
    (defaultTimeout dflt { t with Timeout := 0 }).Timeout = dflt ∧
    (defaultTimeout dflt { t with Timeout := 5 }).Timeout = 5 := by
  refine ⟨?_, ?_, ?_, ?_, ?_⟩
  · rw [testTCPConnection_Request, defaultTimeout_eq]
  · rw [testHTTPConnection_Request, defaultTimeout_eq]
  · simp only [testTCPConnection, defaultTimeout_eq]
    cases h : env.tcpDial (joinHostPort t.Host (toString t.Port))
        (if t.Timeout = 0 then dflt else t.Timeout) <;> simp [h]
  · simp [defaultTimeout]
  · simp [defaultTimeout]

/-- C7: on transport success the record has `success = true` and
`status_code` equal to the response's status code, whatever that code is
(1xx–5xx alike); on transport failure it has `success = false`, the
failure message equal to the underlying error text, and `status_code`
still zero. -/
theorem http_transport_outcome (env : ProbeEnv) (dflt : Int) (nr : Nat)
    (t : Configuration)
    (hreq : env.newRequestErr (requestURL (normalizePath (defaultTimeout dflt t))) = none) :
    (∀ e, env.doResult (requestURL (normalizePath (defaultTimeout dflt t)))
            ((normalizePath (defaultTimeout dflt t)).Timeout) = Except.error e →
      (testHTTPConnection env dflt nr t).Success = false ∧
      (testHTTPConnection env dflt nr t).FailureMessage = e ∧
      (testHTTPConnection env dflt nr t).Status = 0) ∧
    (∀ resp, env.doResult (requestURL (normalizePath (defaultTimeout dflt t)))
               ((normalizePath (defaultTimeout dflt t)).Timeout) = Except.ok resp →
      (testHTTPConnection env dflt nr t).Success = true ∧
      (testHTTPConnection env dflt nr t).Status = resp.StatusCode) := by
  constructor
  · intro e hdo
    simp only [testHTTPConnection, hreq, hdo]
    refine ⟨?_, ?_, ?_⟩ <;> (repeat' split) <;> first | rfl | trivial
  · intro resp hdo
    simp only [testHTTPConnection, hreq, hdo]
    constructor <;> (repeat' split) <;> rfl

/-- C7 witness: a 404 response is transport success. -/
theorem http_transport_outcome_witness :
    (testHTTPConnection env404 10 0 cfgHttp).Success = true ∧
    (testHTTPConnection env404 10 0 cfgHttp).Status = 404 :=
  (http_transport_outcome env404 10 0 cfgHttp rfl).2
    { StatusCode := 404, bodyBytes := "not found", bodyReadErr := none } rfl

/-- C8: the IPv4 resolution step is purely informational: on resolution
failure the record's resolved-address field is the fixed sentinel
`Failed to resolve IP from DNS.`, on success it is the textual resolved
address, and replacing the resolution outcome wholesale (by any function
`f`) changes neither the success flag nor the failure message. -/
theorem dns_resolution_informational (env : ProbeEnv) (dflt : Int) (nr : Nat)
    (t : Configuration) (f : String → String × Option String)
    (hreq : env.newRequestErr (requestURL (normalizePath (defaultTimeout dflt t))) = none) :
    ((env.resolve t.Host).2.isSome = true →
      (testHTTPConnection env dflt nr t).IPResolvedStatus =
        "Failed to resolve IP from DNS.") ∧
    ((env.resolve t.Host).2 = none →
      (testHTTPConnection env dflt nr t).IPResolvedStatus =
        (env.resolve t.Host).1) ∧
    (testHTTPConnection { env with resolve := f } dflt nr t).Success =
      (testHTTPConnection env dflt nr t).Success ∧
    (testHTTPConnection { env with resolve := f } dflt nr t).FailureMessage =
      (testHTTPConnection env dflt nr t).FailureMessage := by
  have hHost : (normalizePath (defaultTimeout dflt t)).Host = t.Host := by
    rw [normalizePath_Host, defaultTimeout_eq]
  refine ⟨?_, ?_, ?_, ?_⟩
  · intro h
    simp only [testHTTPConnection, hreq, hHost, h, if_true]
    repeat' split
    all_goals rfl
  · intro h
    simp only [testHTTPConnection, hreq, hHost, h, Option.isSome_none,
      Bool.false_eq_true, if_false]
    repeat' split
    all_goals rfl
  · simp only [testHTTPConnection, hreq]
    repeat' split
    all_goals rfl
  · simp only [testHTTPConnection, hreq]
    repeat' split
    all_goals rfl

/-- C8 witness: a failing resolution yields the sentinel while the round
trip still succeeds. -/
theorem dns_resolution_informational_witness :
    (testHTTPConnection envDnsFail 10 0 cfgHttp).IPResolvedStatus =
      "Failed to resolve IP from DNS." :=
  (dns_resolution_informational envDnsFail 10 0 cfgHttp
    (fun _ => ("9.9.9.9", none)) rfl).1 rfl

/-- C10: the echoed `request` of each probe's record is a by-value snapshot
taken after timeout defaulting but before path normalization: its timeout
is the resolved effective timeout (the run-wide default when the target
configured 0), its path is the original configured path without the
prepended `/`, and every other field is the original target's.  The
caller's configuration value is never mutated — the embedding's probes are
functions of an immutable argument, mirroring Go's by-value parameter. -/
theorem echoed_request_snapshot (env : ProbeEnv) (dflt : Int) (nr : Nat)
    (t : Configuration) :
    (testHTTPConnection env dflt nr t).Request = defaultTimeout dflt t ∧
    (testTCPConnection env dflt nr t).Request = defaultTimeout dflt t ∧
    (testHTTPConnection env dflt nr t).Request.Path = t.Path ∧
    (testTCPConnection env dflt nr t).Request.Path = t.Path ∧
    (testHTTPConnection env dflt nr { t with Timeout := 0 }).Request.Timeout = dflt ∧
    defaultTimeout dflt t =
      { t with Timeout := if t.Timeout = 0 then dflt else t.Timeout } := by
  refine ⟨testHTTPConnection_Request env dflt nr t,
    testTCPConnection_Request env dflt nr t, ?_, ?_, ?_, defaultTimeout_eq dflt t⟩
  · rw [testHTTPConnection_Request, defaultTimeout_eq]
  · rw [testTCPConnection_Request, defaultTimeout_eq]
  · rw [testHTTPConnection_Request, defaultTimeout_eq]
    simp
